import Mathlib

/-!
Verification development for slp_coroutine.py, a bridge between stackful
Stackless-Python tasklets and the single-step coroutine protocol.

The embedding models:
* Python values as far as the bridge inspects them (`PyVal`),
* exceptions by their type and payload (`Exc`),
* generator/coroutine objects as input-indexed response trees (`Resp`,
  `Awaitable`),
* a tasklet execution as a response tree over resume/throw inputs
  (`TaskResp`), where a suspension publishes a tempval that is either a
  plain value or the private 2-tuple awaitable marker,
* the driver loop of new_generator_coroutine as a step machine
  (`runTask`, `driveInner`, `bridgeStep`, `bridgeClose`),
* await_coroutine, the forward iterator adapter generator() and the
  reverse iterator adapter async_generator as step machines over the
  same exception model.
-/

namespace SlpCoroutine

/-- Python values, as far as slp_coroutine.py inspects them: the bridge code
only ever tests a value with isinstance-tuple, length 2, first element equal
to the string "await", and compares against the tasklet object and None.
`taskletRef` stands for the tasklet object itself, which
stackless.schedule publishes as a default tempval. -/
inductive PyVal : Type where
  | none
  | bool (b : Bool)
  | int (n : Int)
  | str (s : String)
  | tuple (vs : List PyVal)
  | taskletRef

/-- The identity test "value is None". -/
def PyVal.isNone : PyVal → Bool
  | .none => true
  | _ => false

/-- The identity test "value is tasklet" (line 121): stackless.schedule and
stackless.schedule_remove publish the tasklet object itself as the default
tempval, which the bridge replaces with None. -/
def PyVal.isTasklet : PyVal → Bool
  | .taskletRef => true
  | _ => false

/-- Python exceptions by type, with the payloads slp_coroutine.py reads:
StopIteration carries a value, the private TaskletStopIteration subclass
(class TaskletStopIteration(StopIteration)) carries the wrapped return
value, StopAsyncIteration carries the chained cause installed by
"raise StopAsyncIteration() from ex".  GeneratorExit is the one modelled
exception that is a BaseException but not an Exception.  `userError` is an
arbitrary application exception type identified by name. -/
inductive Exc : Type where
  | stopIteration (v : PyVal)
  | taskletStopIteration (v : PyVal)
  | stopAsyncIteration (cause : Option Exc)
  | generatorExit
  | runtimeError (msg : String)
  | typeError (msg : String)
  | attributeError
  | userError (name : String) (payload : PyVal)

/-- isinstance(e, GeneratorExit). -/
def Exc.isGeneratorExit : Exc → Bool
  | .generatorExit => true
  | _ => false

/-- isinstance(e, StopIteration): true for StopIteration and its subclass
TaskletStopIteration. -/
def Exc.isStopIterationClass : Exc → Bool
  | .stopIteration _ => true
  | .taskletStopIteration _ => true
  | _ => false

/-- The .value attribute of a StopIteration-family exception. -/
def Exc.stopValue : Exc → PyVal
  | .stopIteration v => v
  | .taskletStopIteration v => v
  | _ => PyVal.none

/-- isinstance(e, Exception): everything modelled except GeneratorExit,
which derives only from BaseException. -/
def Exc.isExceptionClass : Exc → Bool
  | .generatorExit => false
  | _ => true

/-- One input delivered to a generator/coroutine object: gen.send(v) or
gen.throw(e). -/
inductive CoInput : Type where
  | send (v : PyVal)
  | throw (e : Exc)

/-- The reaction of a generator/coroutine object to one delivered input:
it yields a value and waits for the next input, returns (raising
StopIteration(v) to the caller), or raises an exception. -/
inductive Resp : Type where
  | yielded (v : PyVal) (k : CoInput → Resp)
  | returned (v : PyVal)
  | raised (e : Exc)

/-- A not-yet-finished generator/coroutine object: a function from the next
delivered input to its reaction. -/
def Awaitable : Type := CoInput → Resp

/-- One input delivered to a suspended tasklet by the bridge: resuming with
a tempval, or throwing an exception into it (tasklet.throw(..., pending=True)
followed by running the scheduler). -/
inductive TaskIn : Type where
  | resume (v : PyVal)
  | throwIn (e : Exc)

/-- The tempval a tasklet publishes when it suspends through
stackless.schedule_remove: either a plain value, or the private awaitable
marker ("await", a) whose second element is a coroutine/generator object
(this is what await_coroutine publishes). -/
inductive TempVal : Type where
  | plain (v : PyVal)
  | marker (a : Awaitable)

/-- The reaction of the tasklet to being run by the scheduler: it suspends
publishing a tempval and waits for the next delivery, or it finishes by
raising an exception.  A tasklet bound to _run always finishes by raising:
TaskletStopIteration(result) on normal return of the wrapped callable, or
whatever the callable raised. -/
inductive TaskResp : Type where
  | suspend (t : TempVal) (k : TaskIn → TaskResp)
  | finish (e : Exc)

/-- The marker shape test of new_generator_coroutine line 126:
isinstance(value, tuple) and len(value) == 2 and value[0] == "await". -/
def isMarkerVal : PyVal → Bool
  | .tuple [PyVal.str "await", _] => true
  | _ => false

/-- Positional and keyword arguments of a Python call. -/
def PArgs : Type := List PyVal × List (String × PyVal)

/-- The task body _run (slp_coroutine.py lines 41-44): apply the callable to exactly the
stored positional and keyword arguments and terminate the tasklet by
raising TaskletStopIteration around the returned value; an exception
raised by the callable propagates unwrapped and ends the tasklet with it. -/
def _run (f : PArgs → Except Exc PyVal) (args : PArgs) : TaskResp :=
  match f args with
  | .ok v => .finish (.taskletStopIteration v)
  | .error e => .finish e

/-- new_generator_coroutine (lines 55-60) binds a fresh tasklet to
_run([kwargs, args, callable_]); the tasklet is the initial state the
driver loop then runs. -/
def new_generator_coroutine (f : PArgs → Except Exc PyVal) (args : PArgs) : TaskResp :=
  _run f args

/-- new_coroutine (lines 235-245) wraps new_generator_coroutine in an async
def that merely awaits it; await forwards every intermediate yield and the
terminal result/exception unchanged, so at the stepping protocol its
behaviour is that of the inner generator coroutine. -/
def new_coroutine (f : PArgs → Except Exc PyVal) (args : PArgs) : TaskResp :=
  new_generator_coroutine f args

/-- The bridge state while suspended at its own yield (line 133): the inner
awaitable currently being driven, if any (wait_for), and the paused
tasklet's continuation. -/
structure BState : Type where
  wf : Option Awaitable
  k : TaskIn → TaskResp

/-- What one outer step of the bridge produces: an intermediate yielded
value together with the next bridge state, a terminal return value
(StopIteration(v) to the outer driver), or a raised exception. -/
inductive Outcome : Type where
  | yieldOut (v : PyVal) (st : BState)
  | retOut (v : PyVal)
  | raiseOut (e : Exc)

/-- Lines 111-117: how the bridge translates the exception that ends the
tasklet.  except TaskletStopIteration comes first and returns the wrapped
value; a plain StopIteration is masked as StopAsyncIteration chained from
it; anything else propagates unchanged out of the bridge generator. -/
def finishOutcome : Exc → Outcome
  | .taskletStopIteration v => .retOut v
  | .stopIteration v => .raiseOut (.stopAsyncIteration (some (.stopIteration v)))
  | e => .raiseOut e

/-- Lines 86-133 of the driver loop, from the point where the tasklet is
about to be run (wait_for is None) until the bridge yields, returns or
raises.  A suspension publishing the tasklet itself stands for None
(line 121); a tempval matching the marker shape becomes the new wait_for
and the loop continues by sending None into it (lines 126-130 followed by
lines 67-84); a marker-shaped plain tuple has no send method, so that send
attempt raises AttributeError, which lines 80-84 and 100-105 deliver into
the tasklet as a thrown exception. -/
def runTask : TaskResp → Outcome
  | .finish e => finishOutcome e
  | .suspend (.marker a) k =>
      match a (.send PyVal.none) with
      | .yielded y a2 => .yieldOut y ⟨some a2, k⟩
      | .returned rv => runTask (k (.resume rv))
      | .raised e =>
          if e.isStopIterationClass then runTask (k (.resume e.stopValue))
          else if e.isExceptionClass then runTask (k (.throwIn e))
          else .raiseOut e
  | .suspend (.plain v) k =>
      if isMarkerVal (if v.isTasklet then PyVal.none else v) then
        runTask (k (.throwIn Exc.attributeError))
      else .yieldOut (if v.isTasklet then PyVal.none else v) ⟨none, k⟩

/-- Lines 67-84: one outer step while an inner awaitable is pending
(wait_for is not None).  The delivered value is sent into it, or the
delivered exception is thrown into it; a value it yields is forwarded
outward unchanged and the same wait_for chain stays pending; its
StopIteration ends the inner drive and resumes the tasklet with the final
value; any other Exception ends the inner drive and is thrown into the
tasklet; a BaseException such as GeneratorExit propagates out of the
bridge generator. -/
def driveInner (a : Awaitable) (k : TaskIn → TaskResp) (i : CoInput) : Outcome :=
  match a i with
  | .yielded y a2 => .yieldOut y ⟨some a2, k⟩
  | .returned rv => runTask (k (.resume rv))
  | .raised e =>
      if e.isStopIterationClass then runTask (k (.resume e.stopValue))
      else if e.isExceptionClass then runTask (k (.throwIn e))
      else .raiseOut e

/-- One input from the outer driver to the bridge coroutine: gen.send(v)
or gen.throw(e). -/
inductive OuterIn : Type where
  | send (v : PyVal)
  | throw (e : Exc)

/-- The outer input as delivered to the inner awaitable, unchanged. -/
def outerToCo : OuterIn → CoInput
  | .send v => .send v
  | .throw e => .throw e

/-- One full outer step of the suspended bridge (the loop re-entered at
line 133).  A thrown Exception is recorded and applied at the top of the
loop (lines 144-146 then 67-105); a thrown GeneratorExit triggers the
close path, modelled by bridgeClose, and is re-raised (here summarised by
its outward result); a sent value is delivered to the pending inner
awaitable or to the tasklet. -/
def bridgeStep (st : BState) (i : OuterIn) : Outcome :=
  match i with
  | .send v =>
      match st.wf with
      | some a => driveInner a st.k (.send v)
      | none => runTask (st.k (.resume v))
  | .throw e =>
      if e.isExceptionClass then
        match st.wf with
        | some a => driveInner a st.k (.throw e)
        | none => runTask (st.k (.throwIn e))
      else .raiseOut e

/-- wait_for.close() (line 138): throwing GeneratorExit at the awaitable's
suspension point.  Per the Python generator protocol, close returns
normally when the generator finishes or lets GeneratorExit/StopIteration
out, raises RuntimeError if it yields again, and propagates any other
exception. -/
def closeAwaitable (a : Awaitable) : Except Exc Unit :=
  match a (.throw Exc.generatorExit) with
  | .yielded _ _ => .error (.runtimeError "coroutine ignored GeneratorExit")
  | .returned _ => .ok ()
  | .raised e =>
      if e.isGeneratorExit || e.isStopIterationClass then .ok ()
      else .error e

/-- The observable actions of the GeneratorExit handler, in order. -/
inductive CloseAct : Type where
  | closedInner
  | killedTask
  | reraisedExit
deriving DecidableEq, Repr

/-- What escapes the GeneratorExit handler: the re-raised GeneratorExit,
or an exception raised by the inner awaitable's close. -/
inductive CloseRes : Type where
  | exitRaised
  | raisedOther (e : Exc)

/-- Lines 134-143: on GeneratorExit at the yield, close the pending inner
awaitable first if there is one (clearing wait_for even if close raises),
then kill the tasklet if it is still alive, then re-raise.  If the inner
close raises, that exception propagates immediately: the kill and the
re-raise are skipped.  Result: (ordered action trace, outward result,
whether the tasklet is still alive afterwards). -/
def bridgeClose (wf : Option Awaitable) (alive : Bool) :
    List CloseAct × CloseRes × Bool :=
  match wf with
  | some a =>
      match closeAwaitable a with
      | .ok _ =>
          if alive then
            ([.closedInner, .killedTask, .reraisedExit], .exitRaised, false)
          else ([.closedInner, .reraisedExit], .exitRaised, false)
      | .error e => ([.closedInner], .raisedOther e, alive)
  | none =>
      if alive then ([.killedTask, .reraisedExit], .exitRaised, false)
      else ([.reraisedExit], .exitRaised, false)

/-- The values a generator/coroutine object yields when an external driver
steps it directly with the given input sequence, in order; the trace stops
at the first terminal reaction (return or raise). -/
def directTrace : Awaitable → List CoInput → List PyVal
  | _, [] => []
  | a, i :: is =>
      match a i with
      | .yielded y a2 => y :: directTrace a2 is
      | .returned _ => []
      | .raised _ => []

/-- The values the suspended bridge yields outward over the given sequence
of outer inputs, in order; the trace stops when the bridge returns or
raises. -/
def bridgeYields : BState → List OuterIn → List PyVal
  | _, [] => []
  | st, i :: is =>
      match bridgeStep st i with
      | .yieldOut y st2 => y :: bridgeYields st2 is
      | .retOut _ => []
      | .raiseOut _ => []

/-- The values a freshly created bridge coroutine yields over a whole
drive: the initial send(None) that first runs the tasklet, followed by
the given outer inputs. -/
def bridgeRunYields (t : TaskResp) (is : List OuterIn) : List PyVal :=
  match runTask t with
  | .yieldOut y st => y :: bridgeYields st is
  | .retOut _ => []
  | .raiseOut _ => []

/-- The continuation of a tasklet suspended inside await_coroutine within a
_run-wrapped callable that returns the awaited result: the value delivered
by the bridge becomes the callable's return value (wrapped in
TaskletStopIteration by _run), and an exception delivered by the bridge
propagates out of the callable and ends the tasklet with it. -/
def kRet : TaskIn → TaskResp
  | .resume v => .finish (.taskletStopIteration v)
  | .throwIn e => .finish e

/-- The tasklet of a bridged callable that calls await_coroutine(A) on an
externally supplied awaitable A and returns its result: it suspends
publishing the ("await", A) marker, then behaves as kRet. -/
def awaitTask (a : Awaitable) : TaskResp :=
  .suspend (.marker a) kRet

/-- Argument objects passed to await_coroutine, as far as its isinstance
check distinguishes them: coroutine objects, generator objects, anything
else. -/
inductive PyObj : Type where
  | coroutineObj (a : Awaitable)
  | generatorObj (a : Awaitable)
  | plainObj (v : PyVal)

/-- What a call of await_coroutine (or of the first step of generator())
does immediately: raise an error to the caller, or suspend the tasklet
publishing an awaitable marker. -/
inductive CallRes : Type where
  | raisedErr (e : Exc)
  | suspends (a : Awaitable)

/-- await_coroutine (lines 248-254): the context-flag guard comes first and
raises RuntimeError for every argument whatsoever; only then is the
argument checked to be a coroutine or generator (TypeError otherwise);
only then is the ("await", coroutine) marker published through
stackless.schedule_remove. -/
def await_coroutine (flag : Bool) (arg : PyObj) : CallRes :=
  if flag = false then
    .raisedErr (.runtimeError "Can't call await_coroutine from tasklet")
  else
    match arg with
    | .coroutineObj a => .suspends a
    | .generatorObj a => .suspends a
    | .plainObj _ =>
        .raisedErr (.typeError "argument is neither a coroutine nor a generator")

/-- The method of the source asynchronous iterator that the forward
adapter generator() invokes for one step. -/
inductive GMeth : Type where
  | anext
  | asend (v : PyVal)
  | athrow (e : Exc)

/-- One input from the in-task consumer of generator(): next(g) is
g.send(None), so both are a sent value; or a thrown exception. -/
inductive ConsIn : Type where
  | send (v : PyVal)
  | throwIn (e : Exc)

/-- Lines 163-173: the method generator() selects for the step after a
consumer input: asend after a sent value, athrow after a thrown
exception. -/
def consToMeth : ConsIn → GMeth
  | .send v => .asend v
  | .throwIn e => .athrow e

/-- A finite asynchronous iterator over a list of values, terminating
normally: __anext__ and asend produce the next value, or raise
StopAsyncIteration when exhausted; athrow(e) raises e.  Each method call's
awaitable, driven to completion by the bridge and the outer driver,
completes with exactly this result. -/
def listAStep : List PyVal → GMeth → List PyVal × Except Exc PyVal
  | xs, .athrow e => (xs, .error e)
  | [], _ => ([], .error (.stopAsyncIteration none))
  | x :: xs, _ => (xs, .ok x)

/-- How a run of the forward adapter generator() ends, from the in-task
consumer's point of view. -/
inductive GenTerm : Type where
  | finished
  | escaped (e : Exc)
  | consumerStopped

/-- The loop of generator() (lines 152-173) consuming the list source:
starting with the given method (cls.__anext__ on entry, line 155), each
step awaits one source method call through the suspend primitive; a
StopAsyncIteration from the source ends the iteration normally (return);
any other exception escapes to the consumer; a produced value is yielded
to the consumer, whose next input selects the next method.  Returns the
values yielded to the consumer, the source methods invoked in order, and
how the run ended. -/
def genRun : List PyVal → GMeth → List ConsIn → List PyVal × List GMeth × GenTerm
  | st, m, inps =>
      match listAStep st m with
      | (_, .error (.stopAsyncIteration _)) => ([], [m], .finished)
      | (_, .error e) => ([], [m], .escaped e)
      | (st2, .ok v) =>
          match inps with
          | [] => ([v], [m], .consumerStopped)
          | i :: is =>
              let r := genRun st2 (consToMeth i) is
              (v :: r.1, m :: r.2.1, r.2.2)

/-- generator() as called (lines 148-151): the context-flag guard raises
RuntimeError before anything else; with the flag set it iterates the
source starting with __anext__. -/
def generatorCall (flag : Bool) (src : List PyVal) (inps : List ConsIn) :
    Except Exc (List PyVal × List GMeth × GenTerm) :=
  if flag = false then
    .error (.runtimeError "Can't call generator() from tasklet")
  else .ok (genRun src GMeth.anext inps)

/-- The wrapped object of the reverse adapter async_generator, modelled as
a plain iterator over a list of values with a final return value:
send/next produce the next value or raise StopIteration(retval) when
exhausted; hasSend records whether the object has a send method at all. -/
structure SyncIt : Type where
  hasSend : Bool
  elems : List PyVal
  retval : PyVal

/-- next(it) / it.send(v) for the list iterator model: a sent value is
delivered to the paused yield expression and discarded by a plain list
generator. -/
def SyncIt.advance (g : SyncIt) : SyncIt × Except Exc PyVal :=
  match g.elems with
  | [] => (g, .error (.stopIteration g.retval))
  | x :: xs => ({ g with elems := xs }, .ok x)

/-- it.throw(e) for the list iterator model: the exception is not caught
and propagates. -/
def SyncIt.throwInto (g : SyncIt) (e : Exc) : SyncIt × Except Exc PyVal :=
  (g, .error e)

/-- The tasklet of new_generator_coroutine(m, ...) for a plain method m
that immediately returns or raises, exactly as _run builds it. -/
def taskOfResult : Except Exc PyVal → TaskResp
  | .ok v => .finish (.taskletStopIteration v)
  | .error e => .finish e

/-- await new_generator_coroutine(m, ...) for a plain method that returns
or raises without suspending: the bridge runs the tasklet to completion in
its first step, so the await completes with runTask's terminal outcome. -/
def bridgeEval (r : Except Exc PyVal) : Except Exc PyVal :=
  match runTask (taskOfResult r) with
  | .retOut v => .ok v
  | .raiseOut e => .error e
  | .yieldOut _ _ => .error (.runtimeError "plain method suspended")

/-- Lines 180-194 of async_generator: one inner step on the wrapped
object.  With a pending outside exception, drive throw through the bridge.
Otherwise look up the send method: if present, drive send(value) through
the bridge; if absent (AttributeError), re-raise the AttributeError when
the incoming value is not None, else fall back to driving plain __next__
through the bridge. -/
def agenInner (g : SyncIt) (value : PyVal) (exception : Option Exc) :
    SyncIt × Except Exc PyVal :=
  match exception with
  | some e =>
      let (g2, r) := g.throwInto e
      (g2, bridgeEval r)
  | none =>
      if g.hasSend then
        let (g2, r) := g.advance
        (g2, bridgeEval r)
      else if value.isNone then
        let (g2, r) := g.advance
        (g2, bridgeEval r)
      else (g, .error Exc.attributeError)

/-- One input from the outside driver of async_generator: agen.asend(v)
(plain __anext__ is asend(None)) or agen.athrow(e). -/
inductive AgenIn : Type where
  | asend (v : PyVal)
  | athrow (e : Exc)

/-- How a run of async_generator ends toward the outside driver. -/
inductive AgenTerm : Type where
  | cleanStop
  | raisedOut (e : Exc)
  | consumerStopped

/-- The loop of async_generator (lines 176-209) over the list iterator
model: each iteration performs one inner step; a StopAsyncIteration whose
cause is a StopIteration carrying a non-None value becomes RuntimeError
("generator returned a value other than None"), with a None value the
outward iteration ends cleanly (return); a StopAsyncIteration with any
other cause is re-raised inside the async generator, which the async
generator protocol reports as a RuntimeError; any other exception
propagates outward; a produced value is yielded and the next outside
input sets the pending value or exception.  Returns the values yielded
outward and how the run ended. -/
def agenRun : SyncIt → PyVal → Option Exc → List AgenIn → List PyVal × AgenTerm
  | g, value, exception, inps =>
      match agenInner g value exception with
      | (_, .error (.stopAsyncIteration cause)) =>
          match cause with
          | some c =>
              if c.isStopIterationClass then
                if (c.stopValue).isNone then ([], .cleanStop)
                else
                  ([], .raisedOut
                        (.runtimeError "generator returned a value other than None"))
              else
                ([], .raisedOut
                      (.runtimeError "async generator raised StopAsyncIteration"))
          | none =>
              ([], .raisedOut
                    (.runtimeError "async generator raised StopAsyncIteration"))
      | (_, .error e) => ([], .raisedOut e)
      | (g2, .ok v) =>
          match inps with
          | [] => ([v], .consumerStopped)
          | i :: is =>
              match i with
              | .asend w =>
                  let r := agenRun g2 w none is
                  (v :: r.1, r.2)
              | .athrow e =>
                  let r := agenRun g2 PyVal.none (some e) is
                  (v :: r.1, r.2)

/-- An inner awaitable whose close misbehaves: it catches the thrown
GeneratorExit and yields again (a generator with "try: yield / except
GeneratorExit: yield"), so wait_for.close() raises RuntimeError. -/
def stubbornClose : Awaitable :=
  fun _ => Resp.yielded (PyVal.int 0) (fun _ => Resp.raised (Exc.runtimeError "late"))

/-- An inner awaitable whose close succeeds: the thrown GeneratorExit
propagates straight out, as in an ordinary generator without handlers. -/
def politeClose : Awaitable := fun _ => Resp.raised Exc.generatorExit

/-- A value with exactly the private marker shape: a 2-tuple whose first
element is the string "await". -/
def markerShaped : PyVal := PyVal.tuple [PyVal.str "await", PyVal.none]

/-- Continuation of echoMarker after its first yield: it finishes. -/
def echoMarkerTail : Awaitable := fun _ => Resp.raised (Exc.stopIteration PyVal.none)

/-- An externally supplied awaitable that yields a marker-shaped 2-tuple as
its first intermediate value. -/
def echoMarker : Awaitable := fun _ => Resp.yielded markerShaped echoMarkerTail

/-- A small awaitable for witnesses: yields 1 once, then returns None. -/
def wOnce : Awaitable :=
  fun _ => Resp.yielded (PyVal.int 1) (fun _ => Resp.returned PyVal.none)

/-- An exception other than GeneratorExit is an Exception. -/
theorem isExceptionClass_of_ne (e : Exc) (h : e ≠ Exc.generatorExit) :
    e.isExceptionClass = true := by
  cases e <;> first | rfl | exact absurd rfl h

/-- The terminal translation of the tasklet's ending exception never
yields an intermediate value. -/
theorem finishOutcome_no_yield (e : Exc) (y : PyVal) (st : BState) :
    finishOutcome e ≠ Outcome.yieldOut y st := by
  cases e <;> simp [finishOutcome]

/-- Running a finished tasklet's ending is the terminal translation. -/
theorem runTask_finish (e : Exc) : runTask (.finish e) = finishOutcome e := rfl

/-- Resuming the awaiting continuation with the final inner value ends
the bridged callable returning that value. -/
theorem runTask_kRet_resume (v : PyVal) :
    runTask (kRet (.resume v)) = Outcome.retOut v := rfl

/-- Throwing into the awaiting continuation ends the tasklet with that
exception, translated at the bridge boundary. -/
theorem runTask_kRet_throw (e : Exc) :
    runTask (kRet (.throwIn e)) = finishOutcome e := rfl

/-- C1: a bridged plain callable that simply returns a value, driven to
completion, terminates the bridge coroutine with exactly that value as its
StopIteration value, both through new_generator_coroutine and through the
new_coroutine wrapper; the callable is applied to exactly the original
positional and keyword arguments. -/
theorem c1_roundtrip_value (f : PArgs → PyVal) (args : PArgs) :
    runTask (new_generator_coroutine (fun a => Except.ok (f a)) args) =
      Outcome.retOut (f args) ∧
    runTask (new_coroutine (fun a => Except.ok (f a)) args) =
      Outcome.retOut (f args) :=
  ⟨rfl, rfl⟩

/-- C2: if the wrapped callable raises an exception outside the
StopIteration family, the bridge re-raises that same exception value,
unchanged, to the outer driver. -/
theorem c2_exception_roundtrip (f : PArgs → Except Exc PyVal) (args : PArgs)
    (e : Exc) (hf : f args = Except.error e)
    (he : e.isStopIterationClass = false) :
    runTask (new_generator_coroutine f args) = Outcome.raiseOut e := by
  unfold new_generator_coroutine _run
  rw [hf]
  cases e <;> simp [Exc.isStopIterationClass] at he ⊢ <;> rfl

/-- Witness for C2 at a concrete callable raising a ValueError-like
exception. -/
theorem c2_exception_roundtrip_witness :
    ((fun _ : PArgs =>
        (Except.error (Exc.userError "ValueError" PyVal.none) : Except Exc PyVal))
          ([], []) = Except.error (Exc.userError "ValueError" PyVal.none)) ∧
    (Exc.userError "ValueError" PyVal.none).isStopIterationClass = false ∧
    runTask (new_generator_coroutine
        (fun _ => Except.error (Exc.userError "ValueError" PyVal.none)) ([], [])) =
      Outcome.raiseOut (Exc.userError "ValueError" PyVal.none) :=
  ⟨rfl, rfl, c2_exception_roundtrip _ ([], []) _ rfl rfl⟩

/-- C4: a tasklet ending in a plain StopIteration is masked as
StopAsyncIteration chained from it, while the private TaskletStopIteration
wrapper is unwrapped into a normal return, so the two endings stay
distinguishable. -/
theorem c4_exhaustion_remap (v : PyVal) :
    runTask (TaskResp.finish (Exc.stopIteration v)) =
      Outcome.raiseOut (Exc.stopAsyncIteration (some (Exc.stopIteration v))) ∧
    runTask (TaskResp.finish (Exc.taskletStopIteration v)) = Outcome.retOut v :=
  ⟨rfl, rfl⟩

/-- C5: with the task-local flag unset, await_coroutine raises the
wrong-context RuntimeError for every argument whatsoever, before the
argument-type validation, and entering generator() does the same for every
source and input sequence. -/
theorem c5_context_guard (arg : PyObj) (src : List PyVal) (inps : List ConsIn) :
    await_coroutine false arg =
      CallRes.raisedErr (Exc.runtimeError "Can't call await_coroutine from tasklet") ∧
    generatorCall false src inps =
      Except.error (Exc.runtimeError "Can't call generator() from tasklet") :=
  ⟨rfl, rfl⟩

/-- While the bridge is driving an inner awaitable on behalf of the
awaiting tasklet, every outer input is delivered to the awaitable
unchanged and every value it yields is forwarded outward unchanged, so the
bridge's yields equal the awaitable's own yields on the same inputs. -/
theorem bridgeYields_kRet (a : Awaitable) (is : List OuterIn)
    (h : ∀ i ∈ is, i ≠ OuterIn.throw Exc.generatorExit) :
    bridgeYields ⟨some a, kRet⟩ is = directTrace a (is.map outerToCo) := by
  induction is generalizing a with
  | nil => rfl
  | cons i is ih =>
      have hrest : ∀ j ∈ is, j ≠ OuterIn.throw Exc.generatorExit :=
        fun j hj => h j (List.mem_cons_of_mem i hj)
      cases i with
      | send v =>
          simp only [List.map_cons, outerToCo, bridgeYields, bridgeStep,
            driveInner, directTrace]
          rcases ha : a (CoInput.send v) with ⟨y, a2⟩ | rv | e
          · simpa using ih a2 hrest
          · simp [runTask_kRet_resume]
          · by_cases h1 : e.isStopIterationClass
            · simp [h1, runTask_kRet_resume]
            · by_cases h2 : e.isExceptionClass
              · simp only [h1, h2, if_true, if_false, Bool.false_eq_true,
                  runTask_kRet_throw]
                cases e <;> simp [finishOutcome]
              · simp [h1, h2]
      | throw e =>
          have hne : e ≠ Exc.generatorExit := by
            intro hc
            exact h (OuterIn.throw e) (List.mem_cons_self _ _) (by rw [hc])
          simp only [List.map_cons, outerToCo, bridgeYields, bridgeStep,
            driveInner, directTrace, isExceptionClass_of_ne e hne, if_true]
          rcases ha : a (CoInput.throw e) with ⟨y, a2⟩ | rv | e2
          · simpa using ih a2 hrest
          · simp [runTask_kRet_resume]
          · by_cases h1 : e2.isStopIterationClass
            · simp [h1, runTask_kRet_resume]
            · by_cases h2 : e2.isExceptionClass
              · simp only [h1, h2, if_true, if_false, Bool.false_eq_true,
                  runTask_kRet_throw]
                cases e2 <;> simp [finishOutcome]
              · simp [h1, h2]

/-- C3: a bridged callable awaiting a single externally supplied awaitable
A produces, at the bridge boundary, exactly the yield sequence A itself
produces when stepped directly with the same inputs (the initial send None
followed by the outer driver's inputs, delivered in order as send or
throw): no value is dropped, duplicated, reordered or changed. -/
theorem c3_nested_await_transparency (A : Awaitable) (is : List OuterIn)
    (h : ∀ i ∈ is, i ≠ OuterIn.throw Exc.generatorExit) :
    bridgeRunYields (awaitTask A) is =
      directTrace A (CoInput.send PyVal.none :: is.map outerToCo) := by
  simp only [bridgeRunYields, awaitTask, directTrace, runTask]
  rcases ha : A (CoInput.send PyVal.none) with ⟨y, a2⟩ | rv | e
  · simpa using bridgeYields_kRet a2 is h
  · simp [kRet, finishOutcome]
  · by_cases h1 : e.isStopIterationClass
    · simp [h1, kRet, finishOutcome]
    · by_cases h2 : e.isExceptionClass
      · simp only [h1, h2, if_true, if_false, Bool.false_eq_true, kRet]
        cases e <;> simp [finishOutcome]
      · simp [h1, h2]

/-- Witness for C3 at a concrete awaitable and input sequence. -/
theorem c3_nested_await_transparency_witness :
    (∀ i ∈ [OuterIn.send PyVal.none], i ≠ OuterIn.throw Exc.generatorExit) ∧
    bridgeRunYields (awaitTask wOnce) [OuterIn.send PyVal.none] =
      directTrace wOnce
        (CoInput.send PyVal.none :: [OuterIn.send PyVal.none].map outerToCo) :=
  ⟨by intro i hi; simp at hi; subst hi; simp,
   c3_nested_await_transparency wOnce [OuterIn.send PyVal.none]
     (by intro i hi; simp at hi; subst hi; simp)⟩

/-- C6 counterexample: closing the bridge while it waits on an inner
awaitable whose close raises (here: one that catches GeneratorExit and
yields again, so wait_for.close() raises RuntimeError) performs only the
inner close attempt: the tasklet is not killed and stays alive, and the
closure signal is not re-raised — the close exception propagates
instead. -/
theorem c6_close_counterexample :
    bridgeClose (some stubbornClose) true =
      ([CloseAct.closedInner],
        CloseRes.raisedOther (Exc.runtimeError "coroutine ignored GeneratorExit"),
        true) :=
  rfl

/-- C6 as amended: when the pending inner awaitable's close completes
normally, closing the bridge closes the inner awaitable first, then kills
the task if it is still alive, then re-raises the closure signal, in that
order, leaving the task not alive; with no pending inner awaitable that
part is skipped as a no-op, and a task already finished is not killed. -/
theorem c6_close_order (a : Awaitable) (alive : Bool)
    (h : closeAwaitable a = Except.ok ()) :
    bridgeClose (some a) alive =
      (CloseAct.closedInner ::
        ((if alive then [CloseAct.killedTask] else []) ++ [CloseAct.reraisedExit]),
        CloseRes.exitRaised, false) ∧
    bridgeClose none alive =
      ((if alive then [CloseAct.killedTask] else []) ++ [CloseAct.reraisedExit],
        CloseRes.exitRaised, false) := by
  constructor
  · cases alive <;> simp [bridgeClose, h]
  · cases alive <;> simp [bridgeClose]

/-- Witness for C6 at a concrete well-behaved inner awaitable. -/
theorem c6_close_order_witness :
    closeAwaitable politeClose = Except.ok () ∧
    bridgeClose (some politeClose) true =
      ([CloseAct.closedInner, CloseAct.killedTask, CloseAct.reraisedExit],
        CloseRes.exitRaised, false) :=
  ⟨rfl, by simpa using (c6_close_order politeClose true rfl).1⟩

/-- Stepping genRun over a non-throw method on a list source yields the
whole list in order, invoking that method first and asend(None) after
every plain next, and ends normally. -/
theorem genRun_plain (xs : List PyVal) (m : GMeth) (hm : ∀ e, m ≠ GMeth.athrow e) :
    genRun xs m (List.replicate xs.length (ConsIn.send PyVal.none)) =
      (xs, m :: List.replicate xs.length (GMeth.asend PyVal.none),
        GenTerm.finished) := by
  induction xs generalizing m with
  | nil =>
      cases m with
      | anext => rfl
      | asend v => rfl
      | athrow e => exact absurd rfl (hm e)
  | cons x xs ih =>
      have hnext := ih (GMeth.asend PyVal.none) (fun e hc => by cases hc)
      cases m with
      | anext =>
          simp [genRun, listAStep, List.replicate_succ, consToMeth, hnext]
      | asend v =>
          simp [genRun, listAStep, List.replicate_succ, consToMeth, hnext]
      | athrow e => exact absurd rfl (hm e)

/-- The methods genRun invokes on the source are always an initial segment
of: the entry method, then per consumer input asend after a sent value and
athrow after a thrown exception, in order. -/
theorem genRun_meths (st : List PyVal) (m : GMeth) (inps : List ConsIn) :
    ∃ n, (genRun st m inps).2.1 = (m :: inps.map consToMeth).take n := by
  induction inps generalizing st m with
  | nil =>
      refine ⟨1, ?_⟩
      rcases hls : listAStep st m with ⟨st2, r⟩
      rcases r with e | v
      · cases e <;> simp [genRun, hls]
      · simp [genRun, hls]
  | cons i is ih =>
      rcases hls : listAStep st m with ⟨st2, r⟩
      rcases r with e | v
      · exact ⟨1, by cases e <;> simp [genRun, hls]⟩
      · obtain ⟨n, hn⟩ := ih st2 (consToMeth i)
        refine ⟨n + 1, ?_⟩
        rw [genRun, hls]
        simp [hn, List.take_succ_cons]

/-- C7: consuming a finite asynchronous iterator over xs (terminating
normally with StopAsyncIteration) through the forward adapter generator()
by plain iteration yields exactly xs in order and then stops normally,
the same sequence as iterating the source directly; the first method
invoked on the source is always anext, and thereafter asend follows a
sent value and athrow follows a thrown exception. -/
theorem c7_forward_iterator_fidelity (xs : List PyVal) :
    generatorCall true xs (List.replicate xs.length (ConsIn.send PyVal.none)) =
      Except.ok (xs, GMeth.anext :: List.replicate xs.length (GMeth.asend PyVal.none),
        GenTerm.finished) ∧
    ∀ (st : List PyVal) (inps : List ConsIn),
      ∃ n, (genRun st GMeth.anext inps).2.1 =
        (GMeth.anext :: inps.map consToMeth).take n := by
  constructor
  · have h := genRun_plain xs GMeth.anext (fun e hc => by cases hc)
    simp [generatorCall, h]
  · intro st inps
    exact genRun_meths st GMeth.anext inps

/-- C8: a synchronous generator wrapped by async_generator that yields xs
and then returns r makes the outward asynchronous iteration yield xs and
then fail with RuntimeError "generator returned a value other than None"
when r is not None, and end cleanly when r is None. -/
theorem c8_reverse_value_rule (xs : List PyVal) (r : PyVal) :
    agenRun ⟨true, xs, r⟩ PyVal.none none
        (List.replicate xs.length (AgenIn.asend PyVal.none)) =
      (xs,
        if r.isNone then AgenTerm.cleanStop
        else AgenTerm.raisedOut
              (Exc.runtimeError "generator returned a value other than None")) := by
  induction xs with
  | nil =>
      have hbase : agenRun ⟨true, [], r⟩ PyVal.none none
          (List.replicate (List.length ([] : List PyVal)) (AgenIn.asend PyVal.none)) =
          (if r.isNone then ([], AgenTerm.cleanStop)
           else ([], AgenTerm.raisedOut
                  (Exc.runtimeError "generator returned a value other than None"))) := rfl
      rw [hbase]
      cases hr : r.isNone <;> simp [hr]
  | cons x xs ih =>
      have hstep : agenRun ⟨true, x :: xs, r⟩ PyVal.none none
          (List.replicate (List.length (x :: xs)) (AgenIn.asend PyVal.none)) =
          (x :: (agenRun ⟨true, xs, r⟩ PyVal.none none
              (List.replicate (List.length xs) (AgenIn.asend PyVal.none))).1,
            (agenRun ⟨true, xs, r⟩ PyVal.none none
              (List.replicate (List.length xs) (AgenIn.asend PyVal.none))).2) := rfl
      rw [hstep, ih]

/-- C9 counterexample: a send-less wrapped object driven by two plain
steps (values None both times) silently falls back to plain next on the
second step as well and yields both elements; the claim predicts the
missing-send error on the second step. -/
theorem c9_sendless_counterexample :
    agenRun ⟨false, [PyVal.int 0, PyVal.int 1], PyVal.none⟩ PyVal.none none
        [AgenIn.asend PyVal.none] =
      ([PyVal.int 0, PyVal.int 1], AgenTerm.consumerStopped) :=
  rfl

/-- C9 as amended: for a wrapped object without a send method, the
fallback to plain next is taken on every step whose incoming value is
None (the first step and any later plain advance), and the missing-send
AttributeError is raised exactly on steps where a non-None value was sent
in, regardless of position. -/
theorem c9_sendless_rule :
    (∀ (g : SyncIt) (v : PyVal) (is : List AgenIn),
        g.hasSend = false → v.isNone = false →
        agenRun g v none is = ([], AgenTerm.raisedOut Exc.attributeError)) ∧
    (∀ (x : PyVal) (xs : List PyVal) (r : PyVal) (is : List AgenIn),
        ∃ rest t,
          agenRun ⟨false, x :: xs, r⟩ PyVal.none none is = (x :: rest, t)) := by
  constructor
  · intro g v is hs hv
    rw [agenRun]
    simp [agenInner, hs, hv]
  · intro x xs r is
    cases is with
    | nil => exact ⟨[], AgenTerm.consumerStopped, rfl⟩
    | cons i is =>
        cases i with
        | asend w =>
            exact ⟨(agenRun ⟨false, xs, r⟩ w none is).1,
              (agenRun ⟨false, xs, r⟩ w none is).2, rfl⟩
        | athrow e =>
            exact ⟨(agenRun ⟨false, xs, r⟩ PyVal.none (some e) is).1,
              (agenRun ⟨false, xs, r⟩ PyVal.none (some e) is).2, rfl⟩

/-- Witness for C9 at a concrete send-less object and non-None value. -/
theorem c9_sendless_rule_witness :
    SyncIt.hasSend ⟨false, [], PyVal.none⟩ = false ∧
    (PyVal.int 7).isNone = false ∧
    agenRun ⟨false, [], PyVal.none⟩ (PyVal.int 7) none [] =
      ([], AgenTerm.raisedOut Exc.attributeError) :=
  ⟨rfl, rfl, c9_sendless_rule.1 ⟨false, [], PyVal.none⟩ (PyVal.int 7) [] rfl rfl⟩

/-- C10 counterexample: a bridged callable awaiting an inner awaitable
whose first yield is a marker-shaped 2-tuple makes the bridge yield that
very marker-shaped tuple to the outer driver: values forwarded from the
inner awaitable are published unchanged, marker shape included. -/
theorem c10_marker_escape_counterexample :
    runTask (TaskResp.suspend (TempVal.marker echoMarker) kRet) =
      Outcome.yieldOut markerShaped ⟨some echoMarkerTail, kRet⟩ ∧
    isMarkerVal markerShaped = true :=
  ⟨rfl, rfl⟩

/-- C10 as amended: a marker published by the task itself never escapes:
whenever a bridge step yields a value in the running-task state (no inner
awaitable pending afterwards, i.e. the yielded value is the task's own
published tempval), that value is never marker-shaped — any marker-shaped
tempval is consumed internally as the new inner awaitable. -/
theorem c10_marker_confinement :
    ∀ (t : TaskResp) (v : PyVal) (k : TaskIn → TaskResp),
      runTask t = Outcome.yieldOut v ⟨none, k⟩ → isMarkerVal v = false := by
  intro t
  induction t with
  | finish e =>
      intro v k h
      rw [runTask_finish] at h
      exact absurd h (finishOutcome_no_yield e v ⟨none, k⟩)
  | suspend tv k2 ih =>
      intro v k h
      cases tv with
      | marker a =>
          rw [runTask] at h
          rcases ha : a (CoInput.send PyVal.none) with ⟨y, a2⟩ | rv | e <;>
            rw [ha] at h
          · simp at h
          · exact ih (TaskIn.resume rv) v k h
          · by_cases h1 : e.isStopIterationClass
            · exact ih (TaskIn.resume e.stopValue) v k (by simpa [h1] using h)
            · by_cases h2 : e.isExceptionClass
              · exact ih (TaskIn.throwIn e) v k (by simpa [h1, h2] using h)
              · simp [h1, h2] at h
      | plain pv =>
          rw [runTask] at h
          by_cases hm : isMarkerVal (if pv.isTasklet then PyVal.none else pv)
          · rw [if_pos hm] at h
            exact ih (TaskIn.throwIn Exc.attributeError) v k h
          · rw [if_neg hm] at h
            have hv : (if pv.isTasklet then PyVal.none else pv) = v := by
              injection h
            rw [hv] at hm
            exact Bool.not_eq_true _ |>.mp hm

/-- Witness for C10 at a concrete task publishing a plain value. -/
theorem c10_marker_confinement_witness :
    runTask (TaskResp.suspend (TempVal.plain (PyVal.int 5)) kRet) =
      Outcome.yieldOut (PyVal.int 5) ⟨none, kRet⟩ ∧
    isMarkerVal (PyVal.int 5) = false :=
  ⟨rfl,
    c10_marker_confinement (TaskResp.suspend (TempVal.plain (PyVal.int 5)) kRet)
      (PyVal.int 5) kRet rfl⟩

end SlpCoroutine
